import Mathlib

/-!
# Verification of the py-3d-world character-physics and collision subsystem

Shallow embedding of `engine/physics.py` (class `PhysicsEngine`),
`engine/collision.py` (class `CollisionDetector`) and `engine/shapes.py`
(the interactive rigid bodies) over exact rationals.

Conventions of the embedding:

* numpy 3-vectors become the structure `Vec3` with rational components;
* python mutation becomes explicit state passing: `PhysicsEngine.update`
  becomes a function from the pre-tick player state (`PlayerState`) and
  detector state (`Det`) to the post-tick states, and the sequential
  blocks of its body become the `step_*` functions composed in `update`;
* wall-clock `time.time()` is passed in as the explicit argument
  `current_time`;
* `np.linalg.norm` becomes `Vec3.norm`, built on Mathlib's computable
  `Rat.sqrt`, which is exact on perfect squares (every concrete
  configuration evaluated in this file has perfect-square norms, so the
  embedding agrees with the float code there), is an under-approximation
  elsewhere, and is positive exactly on positive inputs — matching the
  `norm > 0` guards of the source;
* the world's static objects (`world.get_objects()`) become the inductive
  `Obj`.  `InteractiveCube`/`InteractiveTriangle` are python subclasses of
  `Cube`/`Triangle`, so the detector's `isinstance` dispatch treats them
  exactly like `Obj.cube`/`Obj.tri`; spheres match none of the detector's
  `isinstance` branches and `Obj.sphere` is skipped accordingly.
  `Rectangle` is never placed in the world by `World.setup_world` (and the
  `Rectangle` class does not define the `depth` attribute the detector's
  rectangle branch reads, so that branch cannot run without raising), so
  it is not part of the world model;
* the vertex arrays of the shapes are derived rendering data recomputed
  from `position` and the fixed dimensions (`update_vertices`); they carry
  no independent state and are not modeled;
* debug printing and the `last_debug_time` bookkeeping have no effect on
  the simulation state and are dropped.
-/

/-- A numpy 3-vector `[x, y, z]` with exact rational components.
Index `[0]` is `x`, `[1]` is `y` (up), `[2]` is `z`. -/
structure Vec3 where
  x : ℚ
  y : ℚ
  z : ℚ
deriving DecidableEq, Repr

namespace Vec3

instance : Add Vec3 := ⟨fun a b => ⟨a.x + b.x, a.y + b.y, a.z + b.z⟩⟩

instance : Sub Vec3 := ⟨fun a b => ⟨a.x - b.x, a.y - b.y, a.z - b.z⟩⟩

instance : Neg Vec3 := ⟨fun a => ⟨-a.x, -a.y, -a.z⟩⟩

instance : Zero Vec3 := ⟨⟨0, 0, 0⟩⟩

/-- numpy broadcast `v * c` for a scalar `c`. -/
instance : HMul Vec3 ℚ Vec3 := ⟨fun v c => ⟨v.x * c, v.y * c, v.z * c⟩⟩

/-- numpy broadcast `v / c` for a scalar `c`. -/
instance : HDiv Vec3 ℚ Vec3 := ⟨fun v c => ⟨v.x / c, v.y / c, v.z / c⟩⟩

/-- `np.dot` of two 3-vectors. -/
def dot (a b : Vec3) : ℚ := a.x * b.x + a.y * b.y + a.z * b.z

/-- `np.linalg.norm` of a 3-vector. -/
def norm (v : Vec3) : ℚ := Rat.sqrt (v.x * v.x + v.y * v.y + v.z * v.z)

theorem add_def (a b : Vec3) : a + b = ⟨a.x + b.x, a.y + b.y, a.z + b.z⟩ := rfl

theorem sub_def (a b : Vec3) : a - b = ⟨a.x - b.x, a.y - b.y, a.z - b.z⟩ := rfl

theorem smul_def (v : Vec3) (c : ℚ) : v * c = ⟨v.x * c, v.y * c, v.z * c⟩ := rfl

theorem sdiv_def (v : Vec3) (c : ℚ) : v / c = ⟨v.x / c, v.y / c, v.z / c⟩ := rfl

theorem zero_def : (0 : Vec3) = ⟨0, 0, 0⟩ := rfl

end Vec3

/-- `Rat.sqrt` is positive on positive rationals (so every `norm > 0`
guard of the source passes exactly when the vector is nonzero). -/
theorem Rat.sqrt_pos_of_pos {q : ℚ} (hq : 0 < q) : 0 < Rat.sqrt q := by
  rcases lt_or_le 0 (Rat.sqrt q) with h | h
  · exact h
  have h0 : Rat.sqrt q = 0 := le_antisymm h (Rat.sqrt_nonneg q)
  exfalso
  unfold Rat.sqrt at h0
  have hden : Nat.sqrt q.den ≠ 0 := fun h => q.den_nz (Nat.sqrt_eq_zero.mp h)
  rw [Rat.mkRat_eq_zero hden] at h0
  have hnum : 0 < q.num := Rat.num_pos.mpr hq
  have : 0 < Int.sqrt q.num := by
    unfold Int.sqrt
    have : 0 < (q.num).toNat := by omega
    exact_mod_cast Nat.sqrt_pos.mpr this
  omega

/-- The squared euclidean norm of a nonzero vector is positive. -/
theorem Vec3.sq_sum_pos {v : Vec3} (hv : v ≠ 0) :
    0 < v.x * v.x + v.y * v.y + v.z * v.z := by
  rcases v with ⟨x, y, z⟩
  have : x ≠ 0 ∨ y ≠ 0 ∨ z ≠ 0 := by
    by_contra h
    push_neg at h
    exact hv (by simp [Vec3.zero_def, h.1, h.2.1, h.2.2])
  rcases this with h | h | h
  · have := mul_self_pos.mpr h
    nlinarith [mul_self_nonneg y, mul_self_nonneg z]
  · have := mul_self_pos.mpr h
    nlinarith [mul_self_nonneg x, mul_self_nonneg z]
  · have := mul_self_pos.mpr h
    nlinarith [mul_self_nonneg x, mul_self_nonneg y]

/-- A nonzero vector has positive `norm`, so the source's `norm > 0`
guards divide only by nonzero quantities. -/
theorem Vec3.norm_pos {v : Vec3} (hv : v ≠ 0) : 0 < v.norm :=
  Rat.sqrt_pos_of_pos (Vec3.sq_sum_pos hv)

/-- `norm` of a vector supported on the `x` axis. -/
theorem Vec3.norm_x_axis (d : ℚ) : Vec3.norm ⟨d, 0, 0⟩ = |d| := by
  unfold Vec3.norm
  simpa using Rat.sqrt_eq d

/-! ## Collision detector (`engine/collision.py`)

Constants from `CollisionDetector.__init__`. -/

/-- `self.player_radius = 0.5`. -/
def player_radius : ℚ := 0.5

/-- `self.player_height = 1.7`. -/
def player_height : ℚ := 1.7

/-- `self.ground_collision_threshold = 0.05`. -/
def ground_collision_threshold : ℚ := 0.05

/-- Static collider variants of `world.objects` as dispatched by the
detector's `isinstance` chains.  `cube` covers `Cube` and its subclass
`InteractiveCube` (a `width × height × depth` box centered at `position`);
`tri` covers `Triangle`/`InteractiveTriangle` (square base footprint of
side `size` centered at `position`, apex `height` above the base);
`plane` is a ground plane; `sphere` matches no detector branch. -/
inductive Obj where
  | plane (position : Vec3)
  | cube (position : Vec3) (width height depth : ℚ)
  | tri (position : Vec3) (size height : ℚ)
  | sphere (position : Vec3) (radius : ℚ)
deriving DecidableEq, Repr

/-- Mutable fields of `CollisionDetector` threaded through queries:
`_on_ground_last_check`, `_standing_on_object`, `_standing_height`. -/
structure Det where
  on_ground_last_check : Bool
  standing_on_object : Option Obj
  standing_height : ℚ
deriving DecidableEq, Repr

/-- Detector state after `CollisionDetector.__init__`. -/
def initial_det : Det :=
  { on_ground_last_check := false, standing_on_object := none, standing_height := 0 }

/-- `CollisionDetector._check_cube_collision` (collision.py 126-180).
The python function also receives the previous `position`, which it never
reads; that argument is dropped here.  Tests whether `new_position` is
inside the box expanded by `player_radius` on x/z, vertically overlapping
on the `[feet, head]` capsule span, counting the ±0.1 landing band around
the top as a collision. -/
def check_cube_collision (cpos : Vec3) (width height depth : ℚ) (new_position : Vec3) : Bool :=
  let half_width := width / 2
  let half_height := height / 2
  let half_depth := depth / 2
  let cube_min : Vec3 :=
    ⟨cpos.x - half_width - player_radius, cpos.y - half_height, cpos.z - half_depth - player_radius⟩
  let cube_max : Vec3 :=
    ⟨cpos.x + half_width + player_radius, cpos.y + half_height, cpos.z + half_depth + player_radius⟩
  let horizontal_collision :=
    new_position.x ≥ cube_min.x ∧ new_position.x ≤ cube_max.x ∧
    new_position.z ≥ cube_min.z ∧ new_position.z ≤ cube_max.z
  let player_feet := new_position.y - player_height
  let player_head := new_position.y
  let vertical_collision :=
    (player_feet ≤ cube_max.y ∧ player_feet ≥ cube_min.y) ∨
    (player_head ≤ cube_max.y ∧ player_head ≥ cube_min.y) ∨
    (player_feet ≤ cube_min.y ∧ player_head ≥ cube_max.y)
  let vertical_collision :=
    vertical_collision ∨ (player_feet ≤ cube_max.y + 0.1 ∧ player_feet ≥ cube_max.y - 0.1)
  decide (horizontal_collision ∧ vertical_collision)

/-- `CollisionDetector._resolve_cube_collision` (collision.py 245-313):
outward micro-push if already penetrating at `position`; landing snap to
`top + player_height` if the feet are in the ±0.1 band of the top while
horizontally inside the expanded footprint; otherwise axis-decomposed
sliding (x only, then z only, then full stop). -/
def resolve_cube_collision (cpos : Vec3) (width height depth : ℚ)
    (position new_position : Vec3) : Vec3 :=
  if check_cube_collision cpos width height depth position then
    let direction : Vec3 := ⟨position.x - cpos.x, 0, position.z - cpos.z⟩
    if direction.norm > 0 then
      position + (direction / direction.norm) * (0.1 : ℚ)
    else
      position + (⟨0.1, 0, 0⟩ : Vec3)
  else
    let half_width := width / 2
    let half_height := height / 2
    let half_depth := depth / 2
    let cube_min : Vec3 := ⟨cpos.x - half_width, cpos.y - half_height, cpos.z - half_depth⟩
    let cube_max : Vec3 := ⟨cpos.x + half_width, cpos.y + half_height, cpos.z + half_depth⟩
    let player_feet := new_position.y - player_height
    if new_position.x ≥ cube_min.x - player_radius ∧ new_position.x ≤ cube_max.x + player_radius ∧
       new_position.z ≥ cube_min.z - player_radius ∧ new_position.z ≤ cube_max.z + player_radius ∧
       player_feet ≤ cube_max.y + 0.1 ∧ player_feet ≥ cube_max.y - 0.1 then
      ⟨new_position.x, cube_max.y + player_height, new_position.z⟩
    else
      let x_only : Vec3 := ⟨new_position.x, position.y, position.z⟩
      if ¬ check_cube_collision cpos width height depth x_only then x_only
      else
        let z_only : Vec3 := ⟨position.x, position.y, new_position.z⟩
        if ¬ check_cube_collision cpos width height depth z_only then z_only
        else position

/-- `CollisionDetector._check_triangle_collision` (collision.py 450-511):
bounding-box test on the prism footprint expanded by `player_radius`,
including the dead above-apex recheck and the ±0.1 landing band. -/
def check_triangle_collision (tpos : Vec3) (size height : ℚ) (new_position : Vec3) : Bool :=
  let base_half_size := size / 2
  let triangle_min : Vec3 :=
    ⟨tpos.x - base_half_size - player_radius, tpos.y, tpos.z - base_half_size - player_radius⟩
  let triangle_max : Vec3 :=
    ⟨tpos.x + base_half_size + player_radius, tpos.y + height, tpos.z + base_half_size + player_radius⟩
  let horizontal_collision :=
    new_position.x ≥ triangle_min.x ∧ new_position.x ≤ triangle_max.x ∧
    new_position.z ≥ triangle_min.z ∧ new_position.z ≤ triangle_max.z
  let player_feet := new_position.y - player_height
  let player_head := new_position.y
  let vertical_collision :=
    (player_feet ≤ triangle_max.y ∧ player_feet ≥ triangle_min.y) ∨
    (player_head ≤ triangle_max.y ∧ player_head ≥ triangle_min.y) ∨
    (player_feet ≤ triangle_min.y ∧ player_head ≥ triangle_max.y)
  let vertical_collision := vertical_collision ∧ ¬ (player_feet > tpos.y + height)
  let vertical_collision :=
    vertical_collision ∨ (player_feet ≤ triangle_max.y + 0.1 ∧ player_feet ≥ triangle_max.y - 0.1)
  decide (horizontal_collision ∧ vertical_collision)

/-- `CollisionDetector._resolve_triangle_collision` (collision.py 513-577):
outward micro-push if penetrating at `position`; landing snap on the top
band (unexpanded footprint); horizontal push-out from the sides;
otherwise the new position is returned unchanged. -/
def resolve_triangle_collision (tpos : Vec3) (size height : ℚ)
    (position new_position : Vec3) : Vec3 :=
  if check_triangle_collision tpos size height position then
    let direction : Vec3 := ⟨position.x - tpos.x, 0, position.z - tpos.z⟩
    if direction.norm > 0 then
      position + (direction / direction.norm) * (0.1 : ℚ)
    else
      position + (⟨0.1, 0, 0⟩ : Vec3)
  else
    let base_half_size := size / 2
    let triangle_min : Vec3 := ⟨tpos.x - base_half_size, tpos.y, tpos.z - base_half_size⟩
    let triangle_max : Vec3 := ⟨tpos.x + base_half_size, tpos.y + height, tpos.z + base_half_size⟩
    let player_feet := new_position.y - player_height
    let player_head := new_position.y
    if player_feet ≤ triangle_max.y + 0.1 ∧ player_feet ≥ triangle_max.y - 0.1 ∧
       new_position.x ≥ triangle_min.x ∧ new_position.x ≤ triangle_max.x ∧
       new_position.z ≥ triangle_min.z ∧ new_position.z ≤ triangle_max.z then
      ⟨new_position.x, triangle_max.y + player_height, new_position.z⟩
    else if player_feet ≤ triangle_max.y ∧ player_head ≥ triangle_min.y ∧
            new_position.x ≥ triangle_min.x ∧ new_position.x ≤ triangle_max.x ∧
            new_position.z ≥ triangle_min.z ∧ new_position.z ≤ triangle_max.z then
      let direction : Vec3 := ⟨new_position.x - tpos.x, 0, new_position.z - tpos.z⟩
      if direction.norm > 0 then
        let direction := direction / direction.norm
        ⟨tpos.x + direction.x * (base_half_size + player_radius + 0.1),
         new_position.y,
         tpos.z + direction.z * (base_half_size + player_radius + 0.1)⟩
      else new_position
    else new_position

/-- `CollisionDetector._check_standing_on_object` (collision.py 410-448)
for the `Cube` branch (the `Rectangle` branch is unreachable, see the
module comment; other shapes return `False`). -/
def check_standing_on_cube (cpos : Vec3) (width height depth : ℚ) (position : Vec3) : Bool :=
  let player_feet := position.y - player_height
  let half_width := width / 2
  let half_depth := depth / 2
  let top_height := cpos.y + height / 2
  decide (position.x ≥ cpos.x - half_width - player_radius ∧
          position.x ≤ cpos.x + half_width + player_radius ∧
          position.z ≥ cpos.z - half_depth - player_radius ∧
          position.z ≤ cpos.z + half_depth + player_radius ∧
          |player_feet - top_height| < ground_collision_threshold * 4)

/-- `CollisionDetector.check_ground` (collision.py 366-408).  The downward
ray endpoints built at lines 369-371 are never used by the function and
are dropped.  Returns the ground flag and the updated detector state. -/
def check_ground (world : List Obj) (det : Det) (position : Vec3) : Bool × Det :=
  match world with
  | [] => (false, { det with on_ground_last_check := false })
  | obj :: rest =>
    match obj with
    | .plane ppos =>
      if ppos.y = 0 ∧ |position.y - player_height| < ground_collision_threshold then
        (true, { det with standing_on_object := some obj, standing_height := 0 })
      else check_ground rest det position
    | .cube cpos w h d =>
      if check_standing_on_cube cpos w h d position then
        (true, { det with standing_on_object := some obj,
                          standing_height := cpos.y + h / 2,
                          on_ground_last_check := true })
      else check_ground rest det position
    | .tri _ _ _ => check_ground rest det position
    | .sphere _ _ => check_ground rest det position

/-- One iteration of the object loop of `CollisionDetector.check_collision`
(collision.py 38-90): per-type collision check and resolution, recording
the standing object when the resolution raised the y coordinate above the
originally requested `new_position`. -/
def collide_step (position new_position : Vec3) (acc : Vec3 × Det) (obj : Obj) : Vec3 × Det :=
  let adjusted := acc.1
  let det := acc.2
  match obj with
  | .cube cpos w h d =>
    if check_cube_collision cpos w h d adjusted then
      let adjusted2 := resolve_cube_collision cpos w h d position adjusted
      if adjusted2.y > new_position.y then
        (adjusted2, { det with standing_on_object := some obj,
                               on_ground_last_check := true,
                               standing_height := cpos.y + h / 2 })
      else (adjusted2, det)
    else (adjusted, det)
  | .tri tpos s h =>
    if check_triangle_collision tpos s h adjusted then
      let adjusted2 := resolve_triangle_collision tpos s h position adjusted
      if adjusted2.y > new_position.y then
        (adjusted2, { det with standing_on_object := some obj,
                               on_ground_last_check := true,
                               standing_height := tpos.y + h })
      else (adjusted2, det)
    else (adjusted, det)
  | .plane ppos =>
    if ppos.y = 0 ∧ adjusted.y < player_height then
      if player_height - adjusted.y > ground_collision_threshold then
        (⟨adjusted.x, player_height, adjusted.z⟩,
         { det with on_ground_last_check := true,
                    standing_on_object := some obj,
                    standing_height := 0 })
      else (adjusted, det)
    else (adjusted, det)
  | .sphere _ _ => (adjusted, det)

/-- `CollisionDetector.check_collision` (collision.py 18-116): early
return on zero displacement, reset of the standing contact, the object
loop, the platform hysteresis re-snap, and the high-altitude clearing of
the ground flag. -/
def check_collision (world : List Obj) (det : Det) (position new_position : Vec3) :
    Vec3 × Det :=
  if position = new_position then (new_position, det)
  else
    let previous_standing_object := det.standing_on_object
    let previous_standing_height := det.standing_height
    let det : Det := { det with standing_on_object := none, standing_height := 0 }
    let r := world.foldl (collide_step position new_position) (new_position, det)
    let adjusted := r.1
    let det := r.2
    let r :=
      if previous_standing_object ≠ none ∧ det.standing_on_object = none then
        if |adjusted.y - player_height - previous_standing_height| < 0.2 then
          ((⟨adjusted.x, previous_standing_height + player_height, adjusted.z⟩ : Vec3),
           { det with standing_on_object := previous_standing_object,
                      standing_height := previous_standing_height,
                      on_ground_last_check := true })
        else (adjusted, det)
      else (adjusted, det)
    let adjusted := r.1
    let det := r.2
    let det :=
      if adjusted.y > player_height + 0.1 ∧ det.standing_on_object = none then
        { det with on_ground_last_check := false }
      else det
    (adjusted, det)

/-! ## Character physics (`engine/physics.py`, class `PhysicsEngine`)

Constants from `PhysicsEngine.__init__`. -/

/-- `self.gravity = 9.8`. -/
def gravity : ℚ := 9.8

/-- `self.jump_force = 5.0`. -/
def jump_force : ℚ := 5.0

/-- `self.terminal_velocity = 20.0`. -/
def terminal_velocity : ℚ := 20.0

/-- `self.movement_smoothing = 0.8`. -/
def movement_smoothing : ℚ := 0.8

/-- `self.default_eye_height = 1.7`. -/
def default_eye_height : ℚ := 1.7

/-- `self.max_air_time = 2.0`. -/
def max_air_time : ℚ := 2.0

/-- `self.player_mass = 70.0`. -/
def player_mass : ℚ := 70.0

/-- `self.player_push_strength = 500.0`. -/
def player_push_strength : ℚ := 500.0

/-- The mutable per-player fields of `PhysicsEngine`. -/
structure PlayerState where
  velocity : Vec3
  on_ground : Bool
  jumping : Bool
  jump_cooldown : ℚ
  last_update : ℚ
  ground_stabilization_timer : ℚ
  force_on_ground : Bool
  standing_on_platform : Bool
  platform_height : ℚ
  last_platform_height : ℚ
  last_jump_time : ℚ
  just_landed : Bool
  landing_position : Option Vec3
deriving DecidableEq, Repr

/-- Player state after `PhysicsEngine.__init__` at wall-clock time `t0`
(`self.last_update = time.time()`; `self.last_jump_time = 0`). -/
def initial_player_state (t0 : ℚ) : PlayerState :=
  { velocity := 0, on_ground := true, jumping := false, jump_cooldown := 0,
    last_update := t0, ground_stabilization_timer := 0, force_on_ground := true,
    standing_on_platform := false, platform_height := 0, last_platform_height := 0,
    last_jump_time := 0, just_landed := false, landing_position := none }

/-- Warm-up forcing (physics.py 90-95).  `update` has already stored
`current_time` into `last_update` (line 72), so the disable condition
compares `current_time` with itself. -/
def step_warmup (current_time : ℚ) (st : PlayerState) : PlayerState :=
  if st.force_on_ground then
    { st with on_ground := true,
              force_on_ground :=
                if current_time - st.last_update > 1 then false else st.force_on_ground }
  else st

/-- Airtime watchdog (physics.py 97-104): forced landing after
`max_air_time` in the air. -/
def step_watchdog (time_since_jump : ℚ) (st : PlayerState) : PlayerState :=
  if st.jumping ∧ time_since_jump > max_air_time then
    { st with jumping := false, on_ground := true,
              velocity := ⟨st.velocity.x, 0, st.velocity.z⟩, jump_cooldown := 0 }
  else st

/-- Eye-level landing while jumping (physics.py 106-115). -/
def step_eye_level_landing (time_since_jump : ℚ) (position : Vec3) (st : PlayerState) :
    PlayerState :=
  if st.jumping ∧ |position.y - default_eye_height| < 0.1 ∧ time_since_jump > 0.5 then
    { st with jumping := false, on_ground := true,
              velocity := ⟨st.velocity.x, 0, st.velocity.z⟩, jump_cooldown := 0,
              just_landed := true, landing_position := some position }
  else st

/-- Ground sensing (physics.py 117-145): airborne while jumping; grounded
near the default eye height; otherwise `check_ground` plus platform
bookkeeping (`hasattr(obj, 'position')` holds for every shape, so the
platform test reduces to the standing object being present). -/
def step_ground_sense (world : List Obj) (det : Det) (position : Vec3) (st : PlayerState) :
    PlayerState × Det :=
  if st.jumping then ({ st with on_ground := false }, det)
  else if |position.y - default_eye_height| < 0.1 then
    ({ st with on_ground := true, standing_on_platform := false, platform_height := 0 }, det)
  else
    let r := check_ground world det position
    let det := r.2
    let st := { st with on_ground := r.1,
                        standing_on_platform := det.standing_on_object.isSome }
    if det.standing_on_object.isSome then
      ({ st with last_platform_height := st.platform_height,
                 platform_height := det.standing_height }, det)
    else (st, det)

/-- Landing-edge filter (physics.py 147-162): an airborne→grounded edge
while `was_jumping` is accepted only after the 0.5 s guard with
non-positive vertical velocity; otherwise airborne state is forced. -/
def step_landing_filter (time_since_jump : ℚ) (position : Vec3)
    (was_on_ground was_jumping : Bool) (st : PlayerState) : PlayerState :=
  if was_on_ground = false ∧ st.on_ground = true ∧ was_jumping = true then
    if time_since_jump > 0.5 ∧ st.velocity.y ≤ 0 then
      { st with jumping := false, jump_cooldown := 0,
                just_landed := true, landing_position := some position }
    else { st with on_ground := false }
  else st

/-- Ground-stabilization timer decay (physics.py 164-166). -/
def step_stabilization (dt : ℚ) (st : PlayerState) : PlayerState :=
  if st.ground_stabilization_timer > 0 then
    { st with ground_stabilization_timer := st.ground_stabilization_timer - dt }
  else st

/-- Jump initiation (physics.py 181-199): fires exactly when requested,
grounded, and the cooldown is spent (the `elif` arms only print). -/
def step_jump (current_time : ℚ) (jump_requested : Bool) (st : PlayerState) : PlayerState :=
  if jump_requested = true ∧ st.on_ground = true ∧ st.jump_cooldown ≤ 0 then
    { st with velocity := ⟨st.velocity.x, jump_force, st.velocity.z⟩,
              jumping := true, on_ground := false, jump_cooldown := 0.3,
              last_jump_time := current_time }
  else st

/-- Cooldown decay (physics.py 201-203). -/
def step_cooldown (dt : ℚ) (st : PlayerState) : PlayerState :=
  if st.jump_cooldown > 0 then { st with jump_cooldown := st.jump_cooldown - dt } else st

/-- Horizontal smoothing (physics.py 205-207). -/
def step_horizontal (movement_dir : Vec3) (st : PlayerState) : PlayerState :=
  { st with velocity :=
      ⟨st.velocity.x * movement_smoothing + movement_dir.x * (1 - movement_smoothing),
       st.velocity.y,
       st.velocity.z * movement_smoothing + movement_dir.z * (1 - movement_smoothing)⟩ }

/-- Gravity application (physics.py 209-225): when airborne or jumping,
`velocity.y` decreases by `gravity * dt` and is clamped at
`-terminal_velocity`; otherwise it is reset to 0. -/
def step_gravity (dt : ℚ) (st : PlayerState) : PlayerState :=
  if st.on_ground = false ∨ st.jumping = true then
    let vy := st.velocity.y - gravity * dt
    let vy := if vy < -terminal_velocity then -terminal_velocity else vy
    { st with velocity := ⟨st.velocity.x, vy, st.velocity.z⟩ }
  else
    { st with velocity := ⟨st.velocity.x, 0, st.velocity.z⟩ }

/-- Impact handling (physics.py 239-260): zero every velocity component
whose axis was adjusted, then the landing test for an upward y clamp. -/
def step_impact (time_since_jump : ℚ) (new_position adjusted_position : Vec3)
    (st : PlayerState) : PlayerState :=
  if new_position ≠ adjusted_position then
    let v := st.velocity
    let v : Vec3 := ⟨if new_position.x ≠ adjusted_position.x then 0 else v.x,
                     if new_position.y ≠ adjusted_position.y then 0 else v.y,
                     if new_position.z ≠ adjusted_position.z then 0 else v.z⟩
    let st := { st with velocity := v }
    if adjusted_position.y ≠ new_position.y ∧ new_position.y < adjusted_position.y then
      if st.velocity.y < 0 ∧ time_since_jump > 0.5 then
        { st with on_ground := true, jumping := false, jump_cooldown := 0,
                  just_landed := true, landing_position := some adjusted_position }
      else st
    else st
  else st

/-- Minimum-airtime enforcement (physics.py 262-268). -/
def step_min_airtime (time_since_jump : ℚ) (st : PlayerState) : PlayerState :=
  if time_since_jump < 0.5 ∧ st.jumping = true then { st with on_ground := false } else st

/-- High-altitude correction (physics.py 270-276), evaluated on the
pre-tick `position`. -/
def step_altitude (position : Vec3) (st : PlayerState) : PlayerState :=
  if position.y > default_eye_height + 0.5 ∧ st.standing_on_platform = false then
    if st.on_ground then { st with on_ground := false } else st
  else st

/-- Forced landing at ground level (physics.py 278-286), evaluated on the
adjusted position and the tick-start `time_since_jump`. -/
def step_forced_landing (time_since_jump : ℚ) (adjusted_position : Vec3)
    (st : PlayerState) : PlayerState :=
  if |adjusted_position.y - default_eye_height| < 0.05 ∧ time_since_jump > 0.5 ∧
     st.jumping = true then
    { st with jumping := false, on_ground := true,
              velocity := ⟨st.velocity.x, 0, st.velocity.z⟩, jump_cooldown := 0 }
  else st

/-- `PhysicsEngine.update` (physics.py 68-297): the per-tick player-state
transition, returning the adjusted position, the new player state and the
new detector state.  `time_since_jump` is computed once at line 88 from
the tick-start `last_jump_time` and is *not* refreshed by a jump
initiated later in the same tick.  The interactive-object passes
(`handle_interactive_object_collisions` at line 234 and
`update_interactive_objects` at line 295) mutate only the interactive
bodies, never the player or detector state read by this transition; they
are modeled standalone below. -/
def update (world : List Obj) (det : Det) (st : PlayerState)
    (position movement_dir : Vec3) (jump_requested : Bool) (current_time : ℚ) :
    Vec3 × PlayerState × Det :=
  let dt := min (current_time - st.last_update) 0.1
  let st := { st with last_update := current_time,
                      just_landed := false, landing_position := none }
  let was_on_ground := st.on_ground
  let was_jumping := st.jumping
  let time_since_jump := current_time - st.last_jump_time
  let st := step_warmup current_time st
  let st := step_watchdog time_since_jump st
  let st := step_eye_level_landing time_since_jump position st
  let r := step_ground_sense world det position st
  let st := r.1
  let det := r.2
  let st := step_landing_filter time_since_jump position was_on_ground was_jumping st
  let st := step_stabilization dt st
  let st := step_jump current_time jump_requested st
  let st := step_cooldown dt st
  let st := step_horizontal movement_dir st
  let st := step_gravity dt st
  let new_position := position + st.velocity * dt
  let c := check_collision world det position new_position
  let adjusted_position := c.1
  let det := c.2
  let st := step_impact time_since_jump new_position adjusted_position st
  let st := step_min_airtime time_since_jump st
  let st := step_altitude position st
  let st := step_forced_landing time_since_jump adjusted_position st
  (adjusted_position, st, det)

/-! ## Interactive rigid bodies (`engine/shapes.py`) and their collisions -/

/-- Shape descriptor of an interactive body, as dispatched by the
`isinstance` chains of `physics.py`. -/
inductive BodyShape where
  | cubeDims (width height depth : ℚ)
  | triDims (size height : ℚ)
  | sphereDims (radius : ℚ)
deriving DecidableEq, Repr

/-- The physics fields shared by `InteractiveCube`, `InteractiveTriangle`
and `InteractiveSphere`. -/
structure Body where
  position : Vec3
  velocity : Vec3
  acceleration : Vec3
  force : Vec3
  mass : ℚ
  friction : ℚ
  is_movable : Bool
  shape : BodyShape
deriving DecidableEq, Repr

/-- `apply_force` (shapes.py 196-199, identical at 313-316 and 395-398):
accumulate the force only when movable. -/
def Body.apply_force (b : Body) (force_vector : Vec3) : Body :=
  if b.is_movable then { b with force := b.force + force_vector } else b

/-- `update` (shapes.py 201-228, identical at 318-345 and 400-424):
early return when immovable; otherwise semi-implicit integration with
linear drag and the 0.01 resting snap, then the force reset. -/
def Body.update (b : Body) (dt : ℚ) : Body :=
  if b.is_movable = false then b
  else
    let acceleration := b.force / b.mass
    let velocity := b.velocity + acceleration * dt
    let velocity :=
      if velocity.norm > 0 then
        let velocity2 := velocity + (velocity * (-b.friction)) * dt
        if velocity2.norm < 0.01 then (0 : Vec3) else velocity2
      else velocity
    { b with acceleration := acceleration, velocity := velocity,
             position := b.position + velocity * dt, force := 0 }

/-- The pairwise collision threshold of
`PhysicsEngine._handle_object_object_collision` (physics.py 653-686):
half bounding-box diagonals for cubes, `size` for triangles, radii for
spheres, sums for mixed pairs. -/
def collision_threshold (b1 b2 : Body) : ℚ :=
  match b1.shape, b2.shape with
  | .cubeDims w1 h1 d1, .cubeDims w2 h2 d2 =>
      Rat.sqrt (w1 * w1 + h1 * h1 + d1 * d1) / 2 + Rat.sqrt (w2 * w2 + h2 * h2 + d2 * d2) / 2
  | .triDims s1 _, .triDims s2 _ => s1 + s2
  | .sphereDims r1, .sphereDims r2 => r1 + r2
  | .cubeDims w1 h1 d1, .triDims s2 _ => Rat.sqrt (w1 * w1 + h1 * h1 + d1 * d1) / 2 + s2
  | .triDims s1 _, .cubeDims w2 h2 d2 => s1 + Rat.sqrt (w2 * w2 + h2 * h2 + d2 * d2) / 2
  | .cubeDims w1 h1 d1, .sphereDims r2 => Rat.sqrt (w1 * w1 + h1 * h1 + d1 * d1) / 2 + r2
  | .sphereDims r1, .cubeDims w2 h2 d2 => r1 + Rat.sqrt (w2 * w2 + h2 * h2 + d2 * d2) / 2
  | .triDims s1 _, .sphereDims r2 => s1 + r2
  | .sphereDims r1, .triDims s2 _ => r1 + s2

/-- The separation block of `PhysicsEngine._handle_object_object_collision`
(physics.py 720-731): "Separate objects to prevent sticking" — half the
overlap each when both bodies are movable, the full overlap when only one
is, nothing otherwise. -/
def collision_separation (obj1 obj2 : Body) (direction : Vec3) (overlap : ℚ) : Body × Body :=
  if obj1.is_movable ∧ obj2.is_movable then
    let separation := direction * overlap * (0.5 : ℚ)
    ({ obj1 with position := obj1.position - separation },
     { obj2 with position := obj2.position + separation })
  else if obj1.is_movable then
    ({ obj1 with position := obj1.position - direction * overlap }, obj2)
  else if obj2.is_movable then
    (obj1, { obj2 with position := obj2.position + direction * overlap })
  else (obj1, obj2)

/-- `PhysicsEngine._handle_object_object_collision` (physics.py 645-731):
distance-threshold contact; when the bodies are closing, a restitution-0.8
impulse on the movable ones, then the positional separation of
`collision_separation`. -/
def handle_object_object_collision (obj1 obj2 : Body) : Body × Body :=
  let direction := obj2.position - obj1.position
  let distance := direction.norm
  let ct := collision_threshold obj1 obj2
  if distance < ct then
    let direction := if distance > 0 then direction / distance else (⟨1, 0, 0⟩ : Vec3)
    let overlap := ct - distance
    let relative_velocity := obj2.velocity - obj1.velocity
    let velocity_along_normal := Vec3.dot relative_velocity direction
    if velocity_along_normal < 0 then
      let restitution : ℚ := 0.8
      let impulse_scalar :=
        -(1 + restitution) * velocity_along_normal / (1 / obj1.mass + 1 / obj2.mass)
      let impulse := direction * impulse_scalar
      let obj1 := if obj1.is_movable then
        { obj1 with velocity := obj1.velocity - impulse / obj1.mass } else obj1
      let obj2 := if obj2.is_movable then
        { obj2 with velocity := obj2.velocity + impulse / obj2.mass } else obj2
      collision_separation obj1 obj2 direction overlap
    else (obj1, obj2)
  else (obj1, obj2)

/-- The `np.array([w, h, d])`-style size of a body in
`PhysicsEngine._handle_object_object_collisions` (physics.py 382-389):
`none` for the unsupported sphere case. -/
def obj_size_of (b : Body) : Option Vec3 :=
  match b.shape with
  | .cubeDims w h d => some ⟨w, h, d⟩
  | .triDims s h => some ⟨s, h, s⟩
  | .sphereDims _ => none

/-- The mass-ratio separation block of
`PhysicsEngine._handle_object_object_collisions` (physics.py 448-460):
"Move objects apart based on mass ratio" — each movable body moves by the
separation vector scaled by the *other* body's mass share
(`update_vertices` only recomputes derived vertex data). -/
def pair_separation (obj other_obj : Body) (separation_vector : Vec3) : Body × Body :=
  let total_mass := obj.mass + other_obj.mass
  let obj_mass_ratio := other_obj.mass / total_mass
  let other_mass_ratio := obj.mass / total_mass
  (if obj.is_movable then
     { obj with position := obj.position - separation_vector * obj_mass_ratio } else obj,
   if other_obj.is_movable then
     { other_obj with position := other_obj.position + separation_vector * other_mass_ratio }
   else other_obj)

/-- The impulse block of `PhysicsEngine._handle_object_object_collisions`
(physics.py 462-482): a restitution-0.3 impulse along the collision
normal applied to the movable bodies when they are closing. -/
def pair_impulse (obj other_obj : Body) (collision_normal : Vec3) : Body × Body :=
  let relative_velocity := other_obj.velocity - obj.velocity
  let velocity_along_normal := Vec3.dot relative_velocity collision_normal
  if velocity_along_normal < 0 then
    let restitution : ℚ := 0.3
    let impulse_scalar :=
      -(1 + restitution) * velocity_along_normal / (1 / obj.mass + 1 / other_obj.mass)
    let impulse := collision_normal * impulse_scalar
    (if obj.is_movable then
       { obj with velocity := obj.velocity - impulse / obj.mass } else obj,
     if other_obj.is_movable then
       { other_obj with velocity := other_obj.velocity + impulse / other_obj.mass }
     else other_obj)
  else (obj, other_obj)

/-- One pair iteration of `PhysicsEngine._handle_object_object_collisions`
(physics.py 373-486): axis-aligned bounding-box test, the mass-ratio
positional separation of `pair_separation` along the minimum-overlap
axis, then the impulse of `pair_impulse`. -/
def handle_object_object_collisions_pair (obj other_obj : Body) : Body × Body :=
  match obj_size_of obj, obj_size_of other_obj with
  | some obj_size, some other_size =>
    let distance_vector := other_obj.position - obj.position
    let obj_half_size := obj_size / (2 : ℚ)
    let other_half_size := other_size / (2 : ℚ)
    let collision_x := |distance_vector.x| < obj_half_size.x + other_half_size.x
    let collision_y := |distance_vector.y| < obj_half_size.y + other_half_size.y
    let collision_z := |distance_vector.z| < obj_half_size.z + other_half_size.z
    if collision_x ∧ collision_y ∧ collision_z then
      let collision_normal :=
        if distance_vector.norm > 0 then distance_vector / distance_vector.norm
        else (⟨1, 0, 0⟩ : Vec3)
      let overlap_x := obj_half_size.x + other_half_size.x - |distance_vector.x|
      let overlap_y := obj_half_size.y + other_half_size.y - |distance_vector.y|
      let overlap_z := obj_half_size.z + other_half_size.z - |distance_vector.z|
      let min_overlap := min overlap_x (min overlap_y overlap_z)
      let separation_vector : Vec3 :=
        if min_overlap = overlap_x then ⟨collision_normal.x * overlap_x, 0, 0⟩
        else if min_overlap = overlap_y then ⟨0, collision_normal.y * overlap_y, 0⟩
        else ⟨0, 0, collision_normal.z * overlap_z⟩
      let r := pair_separation obj other_obj separation_vector
      pair_impulse r.1 r.2 collision_normal
    else (obj, other_obj)
  | _, _ => (obj, other_obj)

/-- The per-object force computation of
`PhysicsEngine.handle_interactive_object_collisions` (physics.py 305-361):
`none` when no push happens, otherwise the horizontal force passed to
`obj.apply_force`.  The division at line 320 runs only under the
`norm > 0` guard at line 319. -/
def interactive_push_force (position new_position : Vec3) (obj : Body) : Option Vec3 :=
  let movement_vector := new_position - position
  if movement_vector.norm < 0.001 then none
  else
    let movement_vector :=
      if movement_vector.norm > 0 then movement_vector / movement_vector.norm
      else movement_vector
    let distance_vector : Vec3 :=
      ⟨obj.position.x - new_position.x, 0, obj.position.z - new_position.z⟩
    let distance := distance_vector.norm
    let interaction_radius : ℚ := 2.0
    if distance < interaction_radius then
      let push_dir :=
        if distance_vector.norm > 0 then distance_vector / distance_vector.norm
        else (⟨1, 0, 0⟩ : Vec3)
      let dot_product := Vec3.dot movement_vector push_dir
      if dot_product > 0.3 then
        let push_strength := player_push_strength * dot_product * min 1 (player_mass / obj.mass)
        let force := push_dir * push_strength
        some ⟨force.x, 0, force.z⟩
      else none
    else none

/-- The push-direction computation of
`PhysicsEngine.update_interactive_objects` (physics.py 577-589), reached
when `_check_player_object_collision` holds: the horizontal direction from
player to object; if the player stands exactly at the object's center the
player's facing direction (horizontal, normalized) is substituted, and
`[1, 0, 0]` only if that is zero as well. -/
def player_push_dir (obj_position player_position player_direction : Vec3) : Vec3 :=
  let push_dir : Vec3 :=
    ⟨obj_position.x - player_position.x, 0, obj_position.z - player_position.z⟩
  let distance := push_dir.norm
  if distance > 0 then push_dir / distance
  else
    let push_dir : Vec3 := ⟨player_direction.x, 0, player_direction.z⟩
    if push_dir.norm > 0 then push_dir / push_dir.norm else (⟨1, 0, 0⟩ : Vec3)

/-- `PhysicsEngine._check_player_object_collision` (physics.py 610-643). -/
def check_player_object_collision (player_position : Vec3) (obj : Body) : Bool :=
  match obj.shape with
  | .cubeDims w h d =>
    decide ((player_position - obj.position).norm <
      Rat.sqrt (w * w + h * h + d * d) / 2 + player_radius)
  | .triDims s _ => decide ((player_position - obj.position).norm < s + player_radius)
  | .sphereDims r => decide ((player_position - obj.position).norm < r + player_radius)

/-- The vertical-velocity effect of one airborne tick of `step_gravity`
(the state template has `on_ground = false`, the airborne case of
physics.py 209-225). -/
def fall_step (v dt : ℚ) : ℚ :=
  (step_gravity dt
    { initial_player_state 0 with on_ground := false, velocity := ⟨0, v, 0⟩ }).velocity.y

/-- Iterated airborne gravity over a list of tick durations: the vertical
velocity after a fall that stays airborne for every tick of `dts`. -/
def fall_velocity (v0 : ℚ) (dts : List ℚ) : ℚ := dts.foldl fall_step v0

/-- The landing-band condition of `_resolve_cube_collision`
(collision.py 282-287): horizontally inside the `player_radius`-expanded
footprint with the feet within ±0.1 of the box's top face. -/
def cube_landing_band (cpos : Vec3) (width height depth : ℚ) (new_position : Vec3) : Prop :=
  new_position.x ≥ cpos.x - width / 2 - player_radius ∧
  new_position.x ≤ cpos.x + width / 2 + player_radius ∧
  new_position.z ≥ cpos.z - depth / 2 - player_radius ∧
  new_position.z ≤ cpos.z + depth / 2 + player_radius ∧
  new_position.y - player_height ≤ cpos.y + height / 2 + 0.1 ∧
  new_position.y - player_height ≥ cpos.y + height / 2 - 0.1

instance (cpos : Vec3) (width height depth : ℚ) (new_position : Vec3) :
    Decidable (cube_landing_band cpos width height depth new_position) := by
  unfold cube_landing_band
  infer_instance

/-! ## Helper lemmas: fields each tick step leaves untouched

Used to trace `jumping`, `jump_cooldown`, `last_jump_time` and
`force_on_ground` through the composition in `update`. -/

theorem step_warmup_jumping (t : ℚ) (s : PlayerState) :
    (step_warmup t s).jumping = s.jumping := by
  unfold step_warmup; split <;> rfl

theorem step_warmup_cooldown (t : ℚ) (s : PlayerState) :
    (step_warmup t s).jump_cooldown = s.jump_cooldown := by
  unfold step_warmup; split <;> rfl

theorem step_warmup_last_jump (t : ℚ) (s : PlayerState) :
    (step_warmup t s).last_jump_time = s.last_jump_time := by
  unfold step_warmup; split <;> rfl

theorem step_warmup_force (t : ℚ) (s : PlayerState) (h : s.last_update = t) :
    (step_warmup t s).force_on_ground = s.force_on_ground := by
  unfold step_warmup
  split
  · have : ¬ (t - s.last_update > 1) := by rw [h]; simp
    simp [this]
  · rfl

theorem step_warmup_force_self (t : ℚ) (s : PlayerState) :
    (step_warmup t { s with last_update := t, just_landed := false,
                            landing_position := none }).force_on_ground
      = s.force_on_ground :=
  step_warmup_force t _ rfl

theorem step_watchdog_not_jumping (t : ℚ) (s : PlayerState) (h : s.jumping = false) :
    step_watchdog t s = s := by
  unfold step_watchdog
  rw [if_neg]
  simp [h]

theorem step_watchdog_force (t : ℚ) (s : PlayerState) :
    (step_watchdog t s).force_on_ground = s.force_on_ground := by
  unfold step_watchdog; split <;> rfl

theorem step_eye_level_not_jumping (t : ℚ) (p : Vec3) (s : PlayerState)
    (h : s.jumping = false) : step_eye_level_landing t p s = s := by
  unfold step_eye_level_landing
  rw [if_neg]
  simp [h]

theorem step_eye_level_force (t : ℚ) (p : Vec3) (s : PlayerState) :
    (step_eye_level_landing t p s).force_on_ground = s.force_on_ground := by
  unfold step_eye_level_landing; split <;> rfl

theorem step_ground_sense_jumping (w : List Obj) (d : Det) (p : Vec3) (s : PlayerState) :
    (step_ground_sense w d p s).1.jumping = s.jumping := by
  simp only [step_ground_sense]
  split_ifs <;> simp

theorem step_ground_sense_cooldown (w : List Obj) (d : Det) (p : Vec3) (s : PlayerState) :
    (step_ground_sense w d p s).1.jump_cooldown = s.jump_cooldown := by
  simp only [step_ground_sense]
  split_ifs <;> simp

theorem step_ground_sense_last_jump (w : List Obj) (d : Det) (p : Vec3) (s : PlayerState) :
    (step_ground_sense w d p s).1.last_jump_time = s.last_jump_time := by
  simp only [step_ground_sense]
  split_ifs <;> simp

theorem step_ground_sense_force (w : List Obj) (d : Det) (p : Vec3) (s : PlayerState) :
    (step_ground_sense w d p s).1.force_on_ground = s.force_on_ground := by
  simp only [step_ground_sense]
  split_ifs <;> simp

theorem step_landing_filter_not_was_jumping (t : ℚ) (p : Vec3) (og : Bool) (s : PlayerState) :
    step_landing_filter t p og false s = s := by
  unfold step_landing_filter
  rw [if_neg]
  simp

theorem step_landing_filter_force (t : ℚ) (p : Vec3) (og wj : Bool) (s : PlayerState) :
    (step_landing_filter t p og wj s).force_on_ground = s.force_on_ground := by
  simp only [step_landing_filter]
  split_ifs <;> rfl

theorem step_stabilization_jumping (dt : ℚ) (s : PlayerState) :
    (step_stabilization dt s).jumping = s.jumping := by
  unfold step_stabilization; split <;> rfl

theorem step_stabilization_cooldown (dt : ℚ) (s : PlayerState) :
    (step_stabilization dt s).jump_cooldown = s.jump_cooldown := by
  unfold step_stabilization; split <;> rfl

theorem step_stabilization_last_jump (dt : ℚ) (s : PlayerState) :
    (step_stabilization dt s).last_jump_time = s.last_jump_time := by
  unfold step_stabilization; split <;> rfl

theorem step_stabilization_force (dt : ℚ) (s : PlayerState) :
    (step_stabilization dt s).force_on_ground = s.force_on_ground := by
  unfold step_stabilization; split <;> rfl

theorem step_jump_cooldown_pos (t : ℚ) (jr : Bool) (s : PlayerState)
    (h : 0 < s.jump_cooldown) : step_jump t jr s = s := by
  unfold step_jump
  rw [if_neg]
  rintro ⟨-, -, hle⟩
  linarith

theorem step_jump_force (t : ℚ) (jr : Bool) (s : PlayerState) :
    (step_jump t jr s).force_on_ground = s.force_on_ground := by
  unfold step_jump; split <;> rfl

theorem step_cooldown_jumping (dt : ℚ) (s : PlayerState) :
    (step_cooldown dt s).jumping = s.jumping := by
  unfold step_cooldown; split <;> rfl

theorem step_cooldown_last_jump (dt : ℚ) (s : PlayerState) :
    (step_cooldown dt s).last_jump_time = s.last_jump_time := by
  unfold step_cooldown; split <;> rfl

theorem step_cooldown_force (dt : ℚ) (s : PlayerState) :
    (step_cooldown dt s).force_on_ground = s.force_on_ground := by
  unfold step_cooldown; split <;> rfl

theorem step_horizontal_jumping (m : Vec3) (s : PlayerState) :
    (step_horizontal m s).jumping = s.jumping := rfl

theorem step_horizontal_last_jump (m : Vec3) (s : PlayerState) :
    (step_horizontal m s).last_jump_time = s.last_jump_time := rfl

theorem step_horizontal_force (m : Vec3) (s : PlayerState) :
    (step_horizontal m s).force_on_ground = s.force_on_ground := rfl

theorem step_gravity_jumping (dt : ℚ) (s : PlayerState) :
    (step_gravity dt s).jumping = s.jumping := by
  unfold step_gravity; split <;> rfl

theorem step_gravity_last_jump (dt : ℚ) (s : PlayerState) :
    (step_gravity dt s).last_jump_time = s.last_jump_time := by
  unfold step_gravity; split <;> rfl

theorem step_gravity_force (dt : ℚ) (s : PlayerState) :
    (step_gravity dt s).force_on_ground = s.force_on_ground := by
  unfold step_gravity; split <;> rfl

theorem step_impact_jumping_false (t : ℚ) (np ap : Vec3) (s : PlayerState)
    (h : s.jumping = false) : (step_impact t np ap s).jumping = false := by
  simp only [step_impact]
  split_ifs <;> simp [h]

theorem step_impact_last_jump (t : ℚ) (np ap : Vec3) (s : PlayerState) :
    (step_impact t np ap s).last_jump_time = s.last_jump_time := by
  simp only [step_impact]
  split_ifs <;> simp

theorem step_impact_force (t : ℚ) (np ap : Vec3) (s : PlayerState) :
    (step_impact t np ap s).force_on_ground = s.force_on_ground := by
  simp only [step_impact]
  split_ifs <;> simp

theorem step_min_airtime_jumping (t : ℚ) (s : PlayerState) :
    (step_min_airtime t s).jumping = s.jumping := by
  unfold step_min_airtime; split <;> rfl

theorem step_min_airtime_last_jump (t : ℚ) (s : PlayerState) :
    (step_min_airtime t s).last_jump_time = s.last_jump_time := by
  unfold step_min_airtime; split <;> rfl

theorem step_min_airtime_force (t : ℚ) (s : PlayerState) :
    (step_min_airtime t s).force_on_ground = s.force_on_ground := by
  unfold step_min_airtime; split <;> rfl

theorem step_altitude_jumping (p : Vec3) (s : PlayerState) :
    (step_altitude p s).jumping = s.jumping := by
  simp only [step_altitude]
  split_ifs <;> rfl

theorem step_altitude_last_jump (p : Vec3) (s : PlayerState) :
    (step_altitude p s).last_jump_time = s.last_jump_time := by
  simp only [step_altitude]
  split_ifs <;> rfl

theorem step_altitude_force (p : Vec3) (s : PlayerState) :
    (step_altitude p s).force_on_ground = s.force_on_ground := by
  simp only [step_altitude]
  split_ifs <;> rfl

theorem step_forced_landing_jumping_false (t : ℚ) (ap : Vec3) (s : PlayerState)
    (h : s.jumping = false) : (step_forced_landing t ap s).jumping = false := by
  unfold step_forced_landing
  split <;> simp [h]

theorem step_forced_landing_last_jump (t : ℚ) (ap : Vec3) (s : PlayerState) :
    (step_forced_landing t ap s).last_jump_time = s.last_jump_time := by
  unfold step_forced_landing; split <;> rfl

theorem step_forced_landing_force (t : ℚ) (ap : Vec3) (s : PlayerState) :
    (step_forced_landing t ap s).force_on_ground = s.force_on_ground := by
  unfold step_forced_landing; split <;> rfl

/-! ## Helper lemmas for the rigid-body collision handlers -/

theorem vec_sub_x_aligned (a b : Vec3) (dx : ℚ) (hy : b.y = a.y) (hz : b.z = a.z)
    (hdx : b.x - a.x = dx) : b - a = ⟨dx, 0, 0⟩ := by
  simp [Vec3.sub_def, hy, hz, hdx]

theorem pair_separation_fst_of_immovable (b other : Body) (sv : Vec3)
    (hb : b.is_movable = false) : (pair_separation b other sv).1 = b := by
  unfold pair_separation
  simp [hb]

theorem pair_separation_snd_of_immovable (b other : Body) (sv : Vec3)
    (hb : b.is_movable = false) : (pair_separation other b sv).2 = b := by
  unfold pair_separation
  simp [hb]

theorem pair_separation_is_movable (a b : Body) (sv : Vec3) :
    (pair_separation a b sv).1.is_movable = a.is_movable ∧
    (pair_separation a b sv).2.is_movable = b.is_movable := by
  unfold pair_separation
  constructor <;> dsimp only <;> split_ifs <;> rfl

theorem pair_impulse_fst_of_immovable (b other : Body) (cn : Vec3)
    (hb : b.is_movable = false) : (pair_impulse b other cn).1 = b := by
  unfold pair_impulse
  dsimp only
  split_ifs <;> simp_all [hb]

theorem pair_impulse_snd_of_immovable (b other : Body) (cn : Vec3)
    (hb : b.is_movable = false) : (pair_impulse other b cn).2 = b := by
  unfold pair_impulse
  dsimp only
  split_ifs <;> simp_all [hb]

theorem pair_impulse_positions (a b : Body) (cn : Vec3) :
    (pair_impulse a b cn).1.position = a.position ∧
    (pair_impulse a b cn).2.position = b.position := by
  unfold pair_impulse
  dsimp only
  constructor <;> split_ifs <;> rfl

theorem pair_fst_of_immovable (b other : Body) (hb : b.is_movable = false) :
    (handle_object_object_collisions_pair b other).1 = b := by
  unfold handle_object_object_collisions_pair
  rcases hsb : obj_size_of b with _ | sb
  · rfl
  rcases hso : obj_size_of other with _ | so
  · rfl
  dsimp only
  split_ifs <;>
    first
    | rfl
    | (rw [pair_impulse_fst_of_immovable _ _ _
          (by rw [(pair_separation_is_movable _ _ _).1, hb])]
       exact pair_separation_fst_of_immovable _ _ _ hb)

theorem pair_snd_of_immovable (b other : Body) (hb : b.is_movable = false) :
    (handle_object_object_collisions_pair other b).2 = b := by
  unfold handle_object_object_collisions_pair
  rcases hso : obj_size_of other with _ | so
  · rfl
  rcases hsb : obj_size_of b with _ | sb
  · rfl
  dsimp only
  split_ifs <;>
    first
    | rfl
    | (rw [pair_impulse_snd_of_immovable _ _ _
          (by rw [(pair_separation_is_movable _ _ _).2, hb])]
       exact pair_separation_snd_of_immovable _ _ _ hb)

theorem hooc_fst_of_immovable (b other : Body) (hb : b.is_movable = false) :
    (handle_object_object_collision b other).1 = b := by
  unfold handle_object_object_collision collision_separation
  simp only [hb, Bool.false_eq_true, if_false, false_and]
  split_ifs <;> rfl

theorem hooc_snd_of_immovable (b other : Body) (hb : b.is_movable = false) :
    (handle_object_object_collision other b).2 = b := by
  unfold handle_object_object_collision collision_separation
  simp only [hb, Bool.false_eq_true, if_false, false_and, and_false]
  split_ifs <;> rfl

/-- In `_handle_object_object_collisions`, for two movable bodies whose
centers differ only along x (`b` at distance `dx > 0` to the right of
`a`), with the x overlap minimal: each body moves along x by the overlap
scaled by the *other* body's mass share, as physics.py 448-460 computes. -/
theorem pair_separation_mass_weighted_x (a b : Body) (sa sb : Vec3) (dx : ℚ)
    (hsa : obj_size_of a = some sa) (hsb : obj_size_of b = some sb)
    (hma : a.is_movable = true) (hmb : b.is_movable = true)
    (hy : b.position.y = a.position.y) (hz : b.position.z = a.position.z)
    (hdx : b.position.x - a.position.x = dx) (hdxpos : 0 < dx)
    (hcx : dx < sa.x / 2 + sb.x / 2)
    (hxy : sa.x / 2 + sb.x / 2 - dx ≤ sa.y / 2 + sb.y / 2)
    (hxz : sa.x / 2 + sb.x / 2 - dx ≤ sa.z / 2 + sb.z / 2) :
    (handle_object_object_collisions_pair a b).1.position
        = a.position - ⟨(sa.x / 2 + sb.x / 2 - dx) * (b.mass / (a.mass + b.mass)), 0, 0⟩ ∧
    (handle_object_object_collisions_pair a b).2.position
        = b.position + ⟨(sa.x / 2 + sb.x / 2 - dx) * (a.mass / (a.mass + b.mass)), 0, 0⟩ := by
  have hdv : b.position - a.position = ⟨dx, 0, 0⟩ := vec_sub_x_aligned _ _ _ hy hz hdx
  have hox : 0 < sa.x / 2 + sb.x / 2 - dx := by linarith
  unfold handle_object_object_collisions_pair
  rw [hsa, hsb]
  dsimp only
  rw [hdv]
  simp only [Vec3.sdiv_def]
  simp only [abs_of_pos hdxpos, abs_zero, sub_zero]
  rw [if_pos ⟨hcx, by linarith, by linarith⟩]
  rw [Vec3.norm_x_axis, abs_of_pos hdxpos]
  rw [if_pos hdxpos]
  simp only [div_self (ne_of_gt hdxpos), zero_div]
  rw [if_pos (min_eq_left (le_min hxy hxz))]
  rw [(pair_impulse_positions _ _ _).1, (pair_impulse_positions _ _ _).2]
  unfold pair_separation
  dsimp only
  rw [if_pos hma, if_pos hmb]
  dsimp only
  constructor
  · congr 1
    simp [Vec3.smul_def]
  · congr 1
    simp [Vec3.smul_def]

/-- In `_handle_object_object_collision`, two movable bodies offset only
along x and moving toward each other separate by *half* the overlap each
(physics.py 720-725), independently of their masses. -/
theorem collision_equal_split_x (a b : Body) (dx : ℚ)
    (hma : a.is_movable = true) (hmb : b.is_movable = true)
    (hy : b.position.y = a.position.y) (hz : b.position.z = a.position.z)
    (hdx : b.position.x - a.position.x = dx) (hdxpos : 0 < dx)
    (hlt : dx < collision_threshold a b)
    (hclose : b.velocity.x - a.velocity.x < 0) :
    (handle_object_object_collision a b).1.position
        = a.position - ⟨(collision_threshold a b - dx) * (0.5 : ℚ), 0, 0⟩ ∧
    (handle_object_object_collision a b).2.position
        = b.position + ⟨(collision_threshold a b - dx) * (0.5 : ℚ), 0, 0⟩ := by
  have hdv : b.position - a.position = ⟨dx, 0, 0⟩ := vec_sub_x_aligned _ _ _ hy hz hdx
  unfold handle_object_object_collision
  dsimp only
  rw [hdv, Vec3.norm_x_axis, abs_of_pos hdxpos]
  rw [if_pos hlt, if_pos hdxpos]
  simp only [Vec3.sdiv_def, div_self (ne_of_gt hdxpos), zero_div]
  have hdot : Vec3.dot (b.velocity - a.velocity) ⟨1, 0, 0⟩ = b.velocity.x - a.velocity.x := by
    simp [Vec3.dot, Vec3.sub_def]
  rw [hdot, if_pos hclose]
  rw [if_pos hma, if_pos hmb]
  unfold collision_separation
  dsimp only
  rw [if_pos ⟨hma, hmb⟩]
  constructor
  · dsimp only
    congr 1
    simp [Vec3.smul_def]
  · dsimp only
    congr 1
    simp [Vec3.smul_def]

/-! ## Helper lemmas for gravity iteration -/

theorem fall_step_eq (v dt : ℚ) :
    fall_step v dt =
      if v - gravity * dt < -terminal_velocity then -terminal_velocity
      else v - gravity * dt := by
  simp [fall_step, step_gravity]

theorem fall_velocity_clamped (dts : List ℚ) (v : ℚ)
    (hnn : ∀ dt ∈ dts, 0 ≤ dt) (hv : -terminal_velocity ≤ v)
    (hsum : v - gravity * dts.sum ≤ -terminal_velocity) :
    fall_velocity v dts = -terminal_velocity := by
  induction dts generalizing v with
  | nil =>
    simp only [fall_velocity, List.foldl_nil, List.sum_nil, mul_zero, sub_zero] at *
    linarith
  | cons d rest ih =>
    have hd : 0 ≤ d := hnn d (by simp)
    have hrest : ∀ dt ∈ rest, 0 ≤ dt := fun dt hdt => hnn dt (by simp [hdt])
    have hrs : 0 ≤ rest.sum := List.sum_nonneg hrest
    have hstep : fall_velocity v (d :: rest) = fall_velocity (fall_step v d) rest := by
      simp [fall_velocity]
    rw [hstep]
    rw [fall_step_eq]
    split_ifs with hclamp
    · exact ih (-terminal_velocity) hrest le_rfl (by unfold gravity; nlinarith)
    · exact ih (v - gravity * d) hrest (by linarith) (by
        have : v - gravity * (d :: rest).sum = v - gravity * d - gravity * rest.sum := by
          simp [List.sum_cons]; ring
        linarith [hsum, this.symm.le, this.le])

/-! ## Claim theorems -/

unseal Rat.add Rat.sub Rat.mul Rat.inv Rat.ofScientific Nat.sqrt.iter in
/-- C1: the spec requires `jumping` to turn false only when the elapsed
time since the jump started exceeds 0.5 s, with `onGround` false inside
that window.  The code violates this: `time_since_jump` is computed at
line 88 from the *previous* jump and is not refreshed when a jump is
initiated at line 182, so the forced-landing rule at line 279 cancels a
newly initiated jump in the very same tick.  Here a grounded player at
rest requests a jump at t = 100 with a 10 ms frame and a stale
`last_jump_time = 0`: after the tick `last_jump_time = 100` (the jump
fired this tick) yet `jumping = false`, `on_ground = true` and
`velocity.y = 0` — the jump was cancelled at elapsed time 0 s. -/
theorem c1_same_tick_jump_cancellation :
    let st : PlayerState := { initial_player_state 0 with last_update := 99.99 }
    let r := update [Obj.plane ⟨0, 0, 0⟩] initial_det st ⟨0, 1.7, 0⟩ 0 true 100
    r.2.1.last_jump_time = 100 ∧ r.2.1.jumping = false ∧ r.2.1.on_ground = true ∧
      r.2.1.velocity.y = 0 ∧ r.2.1.jump_cooldown = 0 := by decide

unseal Rat.add Rat.sub Rat.mul Rat.inv Rat.ofScientific Nat.sqrt.iter in
/-- C2 counterexample: a tick with a jump requested while
`jump_cooldown = 0.2 > 0` does *not* leave `velocity.y` unchanged — the
player is mid-jump, so gravity integration changes `velocity.y` from 4
to 3.51 in the same tick. -/
theorem c2_cooldown_tick_changes_velocity :
    let st : PlayerState :=
      { initial_player_state 0 with
          velocity := ⟨0, 4, 0⟩, on_ground := false, jumping := true,
          jump_cooldown := 0.2, last_update := 99.95, last_jump_time := 99.9 }
    let r := update [Obj.plane ⟨0, 0, 0⟩] initial_det st ⟨0, 2.5, 0⟩ 0 true 100
    0 < st.jump_cooldown ∧ r.2.1.velocity.y = 3.51 ∧ r.2.1.velocity.y ≠ st.velocity.y := by
  decide

/-- C2 amended: the cooldown gates only jump *initiation*.  For a tick
entered with `jumping = false` and `jump_cooldown > 0`, the whole update
initiates no jump: `jumping` stays false and `last_jump_time` is
unchanged (`velocity.y` may still change through gravity or landing
rules, as the counterexample shows).  Moreover the jump-initiation step
fires — setting `velocity.y = 5.0`, `jumping = true`,
`onGround = false`, cooldown 0.3 s and the jump start time — exactly
when the jump is requested, the player is grounded and the cooldown is
spent at that point of the tick. -/
theorem c2_cooldown_gates_jump_initiation (world : List Obj) (det : Det) (st : PlayerState)
    (position movement_dir : Vec3) (jump_requested : Bool) (current_time : ℚ)
    (hj : st.jumping = false) (hc : 0 < st.jump_cooldown) :
    (update world det st position movement_dir jump_requested current_time).2.1.jumping
        = false ∧
    (update world det st position movement_dir jump_requested current_time).2.1.last_jump_time
        = st.last_jump_time ∧
    (∀ (s : PlayerState) (t : ℚ) (jr : Bool),
      (jr = true ∧ s.on_ground = true ∧ s.jump_cooldown ≤ 0 →
        step_jump t jr s =
          { s with velocity := ⟨s.velocity.x, jump_force, s.velocity.z⟩,
                   jumping := true, on_ground := false,
                   jump_cooldown := 0.3, last_jump_time := t }) ∧
      (¬ (jr = true ∧ s.on_ground = true ∧ s.jump_cooldown ≤ 0) →
        step_jump t jr s = s)) := by
  refine ⟨?_, ?_, ?_⟩
  · unfold update
    have h1 : ({ st with last_update := current_time, just_landed := false,
                         landing_position := none } : PlayerState).jumping = false := hj
    simp only []
    rw [step_watchdog_not_jumping _ _ (by rw [step_warmup_jumping]; exact h1)]
    rw [step_eye_level_not_jumping _ _ _ (by rw [step_warmup_jumping]; exact h1)]
    rw [show ({ st with last_update := current_time, just_landed := false,
                        landing_position := none } : PlayerState).jumping = false from hj]
    rw [step_landing_filter_not_was_jumping]
    rw [step_jump_cooldown_pos _ _ _ (by
      rw [step_stabilization_cooldown, step_ground_sense_cooldown, step_warmup_cooldown]
      exact hc)]
    rw [step_forced_landing_jumping_false]
    rw [step_altitude_jumping, step_min_airtime_jumping]
    rw [step_impact_jumping_false]
    rw [step_gravity_jumping, step_horizontal_jumping, step_cooldown_jumping,
        step_stabilization_jumping, step_ground_sense_jumping, step_warmup_jumping]
  · unfold update
    have h1 : ({ st with last_update := current_time, just_landed := false,
                         landing_position := none } : PlayerState).jumping = false := hj
    simp only []
    rw [step_watchdog_not_jumping _ _ (by rw [step_warmup_jumping]; exact h1)]
    rw [step_eye_level_not_jumping _ _ _ (by rw [step_warmup_jumping]; exact h1)]
    rw [show ({ st with last_update := current_time, just_landed := false,
                        landing_position := none } : PlayerState).jumping = false from hj]
    rw [step_landing_filter_not_was_jumping]
    rw [step_jump_cooldown_pos _ _ _ (by
      rw [step_stabilization_cooldown, step_ground_sense_cooldown, step_warmup_cooldown]
      exact hc)]
    rw [step_forced_landing_last_jump, step_altitude_last_jump, step_min_airtime_last_jump,
        step_impact_last_jump, step_gravity_last_jump, step_horizontal_last_jump,
        step_cooldown_last_jump, step_stabilization_last_jump, step_ground_sense_last_jump,
        step_warmup_last_jump]
  · intro s t jr
    constructor
    · intro hcond
      unfold step_jump
      rw [if_pos hcond]
    · intro hncond
      unfold step_jump
      rw [if_neg hncond]

unseal Rat.add Rat.sub Rat.mul Rat.inv Rat.ofScientific Nat.sqrt.iter in
/-- C2 witness: the gating theorem applied to a concrete non-jumping
state with a positive cooldown over the ground plane. -/
theorem c2_cooldown_gating_witness :
    (update [Obj.plane ⟨0, 0, 0⟩] initial_det
        { initial_player_state 0 with jump_cooldown := 0.2, last_update := 99.95 }
        ⟨0, 1.7, 0⟩ 0 true 100).2.1.jumping = false ∧
    (update [Obj.plane ⟨0, 0, 0⟩] initial_det
        { initial_player_state 0 with jump_cooldown := 0.2, last_update := 99.95 }
        ⟨0, 1.7, 0⟩ 0 true 100).2.1.last_jump_time = 0 := by
  have h := c2_cooldown_gates_jump_initiation [Obj.plane ⟨0, 0, 0⟩] initial_det
    { initial_player_state 0 with jump_cooldown := 0.2, last_update := 99.95 }
    ⟨0, 1.7, 0⟩ 0 true 100 rfl (by decide)
  exact ⟨h.1, h.2.1⟩

/-- C3: when airborne or jumping, one tick decrements `velocity.y` by
`gravity * dt` clamped from below at `-terminal_velocity`; when grounded
and not jumping it resets `velocity.y` to 0; and any fall that starts
with non-positive vertical velocity and stays airborne for total time
greater than `terminal_velocity / gravity` ends with
`|velocity.y| = terminal_velocity` exactly. -/
theorem c3_gravity_integration_terminal_velocity :
    (∀ (dt : ℚ) (st : PlayerState), st.on_ground = false ∨ st.jumping = true →
       (step_gravity dt st).velocity.y
         = max (st.velocity.y - gravity * dt) (-terminal_velocity)) ∧
    (∀ (dt : ℚ) (st : PlayerState), st.on_ground = true → st.jumping = false →
       (step_gravity dt st).velocity.y = 0) ∧
    (∀ (v0 : ℚ) (dts : List ℚ), v0 ≤ 0 → (∀ dt ∈ dts, 0 ≤ dt) →
       terminal_velocity / gravity < dts.sum →
       |fall_velocity v0 dts| = terminal_velocity) := by
  refine ⟨?_, ?_, ?_⟩
  · intro dt st h
    unfold step_gravity
    rw [if_pos h]
    dsimp only
    rcases lt_or_le (st.velocity.y - gravity * dt) (-terminal_velocity) with hlt | hle
    · rw [if_pos hlt]
      exact (max_eq_right hlt.le).symm
    · rw [if_neg (not_lt.mpr hle)]
      exact (max_eq_left hle).symm
  · intro dt st h1 h2
    unfold step_gravity
    rw [if_neg]
    simp [h1, h2]
  · intro v0 dts hv0 hnn hsum
    have hg : (0 : ℚ) < gravity := by norm_num [gravity]
    have hgs : terminal_velocity < gravity * dts.sum := by
      have := (div_lt_iff₀ hg).mp hsum
      linarith [this]
    have habs : fall_velocity v0 dts = -terminal_velocity := by
      rcases le_or_lt (-terminal_velocity) v0 with hge | hlt
      · exact fall_velocity_clamped dts v0 hnn hge (by linarith)
      · match dts, hsum with
        | d :: rest, _ =>
          have hd : 0 ≤ d := hnn d (by simp)
          have hrest : ∀ dt ∈ rest, 0 ≤ dt := fun dt hdt => hnn dt (by simp [hdt])
          have hrs : 0 ≤ rest.sum := List.sum_nonneg hrest
          have h1 : fall_velocity v0 (d :: rest) = fall_velocity (fall_step v0 d) rest := by
            simp [fall_velocity]
          have h2 : fall_step v0 d = -terminal_velocity := by
            rw [fall_step_eq, if_pos]
            nlinarith
          rw [h1, h2]
          exact fall_velocity_clamped rest (-terminal_velocity) hrest le_rfl (by nlinarith)
        | [], hs =>
          exfalso
          simp only [List.sum_nil] at hs
          norm_num [terminal_velocity, gravity] at hs
    rw [habs]
    norm_num [terminal_velocity]

/-- C3 witness: a fall from rest over 21 ticks of 0.1 s (total 2.1 s,
longer than `20 / 9.8 ≈ 2.04 s`) ends at exactly the terminal speed. -/
theorem c3_terminal_velocity_witness :
    |fall_velocity 0 (List.replicate 21 (0.1 : ℚ))| = terminal_velocity := by
  refine c3_gravity_integration_terminal_velocity.2.2 0 _ le_rfl ?_ ?_
  · intro dt hdt
    rw [List.eq_of_mem_replicate hdt]
    norm_num
  · rw [List.sum_replicate]
    norm_num [terminal_velocity, gravity]

unseal Rat.add Rat.sub Rat.mul Rat.inv Rat.ofScientific Nat.sqrt.iter in
/-- C4 counterexample: a colliding desired position whose feet are in the
±0.1 top landing band is *not* resolved by sliding.  Box centered at
(0,1,0) with side 2 (top at y = 2); previous position (3, 3.75, 0) is
outside (no penetration), desired (0.9, 3.75, 0) collides via the landing
band (feet 2.05), and the resolver snaps to (0.9, 3.7, 0) — which is
neither the x-only move (0.9, 3.75, 0), nor the z-only move, nor the
previous position (3, 3.75, 0). -/
theorem c4_landing_band_preempts_sliding :
    check_cube_collision ⟨0, 1, 0⟩ 2 2 2 ⟨3, 3.75, 0⟩ = false ∧
    check_cube_collision ⟨0, 1, 0⟩ 2 2 2 ⟨0.9, 3.75, 0⟩ = true ∧
    resolve_cube_collision ⟨0, 1, 0⟩ 2 2 2 ⟨3, 3.75, 0⟩ ⟨0.9, 3.75, 0⟩ = ⟨0.9, 3.7, 0⟩ ∧
    (⟨0.9, 3.7, 0⟩ : Vec3) ≠ ⟨0.9, 3.75, 0⟩ ∧
    (⟨0.9, 3.7, 0⟩ : Vec3) ≠ ⟨3, 3.75, 0⟩ := by decide

/-- C4 amended: for a box collision from a non-penetrating previous
position whose desired position collides but is *not* in the top landing
band, the resolver is exactly the axis-decomposed slide: the x-only move
(y and z kept at the previous values) if that does not collide, else the
z-only move, else the previous position unchanged.  In particular a
displacement whose x-only component collides while the z-only one does
not resolves to the z-only component. -/
theorem c4_axis_decomposed_sliding (cpos : Vec3) (w h d : ℚ)
    (position new_position : Vec3)
    (hprev : check_cube_collision cpos w h d position = false)
    (hcol : check_cube_collision cpos w h d new_position = true)
    (hband : ¬ cube_landing_band cpos w h d new_position) :
    check_cube_collision cpos w h d new_position = true ∧
    resolve_cube_collision cpos w h d position new_position =
      if check_cube_collision cpos w h d ⟨new_position.x, position.y, position.z⟩ = false
      then ⟨new_position.x, position.y, position.z⟩
      else if check_cube_collision cpos w h d ⟨position.x, position.y, new_position.z⟩ = false
      then ⟨position.x, position.y, new_position.z⟩
      else position := by
  refine ⟨hcol, ?_⟩
  unfold resolve_cube_collision
  rw [if_neg (by simp [hprev])]
  rw [if_neg (by simpa [cube_landing_band] using hband)]
  simp only [Bool.not_eq_true]

unseal Rat.add Rat.sub Rat.mul Rat.inv Rat.ofScientific Nat.sqrt.iter in
/-- C4 witness: the sliding theorem at a concrete input where moving only
along x still collides but moving only along z is free: the resolver
returns the z-only component, leaving x at its previous value. -/
theorem c4_sliding_witness :
    resolve_cube_collision ⟨0, 1, 0⟩ 2 2 2 ⟨2, 1.7, 0⟩ ⟨1.2, 1.7, 1⟩ = ⟨2, 1.7, 1⟩ := by
  rw [(c4_axis_decomposed_sliding ⟨0, 1, 0⟩ 2 2 2 ⟨2, 1.7, 0⟩ ⟨1.2, 1.7, 1⟩
    (by decide) (by decide) (by decide)).2]
  decide

unseal Rat.add Rat.sub Rat.mul Rat.inv Rat.ofScientific Nat.sqrt.iter in
/-- C5 counterexample: in `_handle_object_object_collision`, two movable
closing bodies of masses 10 and 30 (shape `(1,2,2)` boxes, half-diagonal
threshold 3) overlapping by 0.4 separate by 0.2 *each* — a 50/50 split,
not the mass-weighted 0.3 / 0.1 the claim states for every pair. -/
theorem c5_equal_split_not_mass_weighted :
    let a : Body := ⟨⟨0, 0, 0⟩, ⟨1, 0, 0⟩, 0, 0, 10, 0.3, true, .cubeDims 1 2 2⟩
    let b : Body := ⟨⟨2.6, 0, 0⟩, ⟨-1, 0, 0⟩, 0, 0, 30, 0.3, true, .cubeDims 1 2 2⟩
    collision_threshold a b - (b.position - a.position).norm = 0.4 ∧
    (handle_object_object_collision a b).1.position = ⟨-0.2, 0, 0⟩ ∧
    (handle_object_object_collision a b).2.position = ⟨2.8, 0, 0⟩ := by decide

/-- C5 amended: the mass-weighted separation holds in the AABB-based
handler `_handle_object_object_collisions` — for x-aligned overlapping
movable pairs, body A moves by `overlap * massB/(massA+massB)` and body B
by `overlap * massA/(massA+massB)` — while the distance-threshold handler
`_handle_object_object_collision` splits the overlap 50/50 between two
movable bodies (and separates only when they are closing). -/
theorem c5_separation_amended :
    (∀ (a b : Body) (sa sb : Vec3) (dx : ℚ),
      obj_size_of a = some sa → obj_size_of b = some sb →
      a.is_movable = true → b.is_movable = true →
      b.position.y = a.position.y → b.position.z = a.position.z →
      b.position.x - a.position.x = dx → 0 < dx →
      dx < sa.x / 2 + sb.x / 2 →
      sa.x / 2 + sb.x / 2 - dx ≤ sa.y / 2 + sb.y / 2 →
      sa.x / 2 + sb.x / 2 - dx ≤ sa.z / 2 + sb.z / 2 →
      (handle_object_object_collisions_pair a b).1.position
          = a.position - ⟨(sa.x / 2 + sb.x / 2 - dx) * (b.mass / (a.mass + b.mass)), 0, 0⟩ ∧
      (handle_object_object_collisions_pair a b).2.position
          = b.position + ⟨(sa.x / 2 + sb.x / 2 - dx) * (a.mass / (a.mass + b.mass)), 0, 0⟩) ∧
    (∀ (a b : Body) (dx : ℚ),
      a.is_movable = true → b.is_movable = true →
      b.position.y = a.position.y → b.position.z = a.position.z →
      b.position.x - a.position.x = dx → 0 < dx →
      dx < collision_threshold a b →
      b.velocity.x - a.velocity.x < 0 →
      (handle_object_object_collision a b).1.position
          = a.position - ⟨(collision_threshold a b - dx) * (0.5 : ℚ), 0, 0⟩ ∧
      (handle_object_object_collision a b).2.position
          = b.position + ⟨(collision_threshold a b - dx) * (0.5 : ℚ), 0, 0⟩) := by
  constructor
  · intro a b sa sb dx hsa hsb hma hmb hy hz hdx hdxpos hcx hxy hxz
    exact pair_separation_mass_weighted_x a b sa sb dx hsa hsb hma hmb hy hz hdx hdxpos
      hcx hxy hxz
  · intro a b dx hma hmb hy hz hdx hdxpos hlt hclose
    exact collision_equal_split_x a b dx hma hmb hy hz hdx hdxpos hlt hclose

unseal Rat.add Rat.sub Rat.mul Rat.inv Rat.ofScientific Nat.sqrt.iter in
/-- C5 witness: the AABB handler at the claim's instance — masses 10 and
30, x overlap 0.4 — moves the bodies by 0.3 and 0.1 respectively. -/
theorem c5_separation_witness :
    (handle_object_object_collisions_pair
        ⟨⟨0, 0, 0⟩, 0, 0, 0, 10, 0.2, true, .cubeDims 1 2 2⟩
        ⟨⟨0.6, 0, 0⟩, 0, 0, 0, 30, 0.3, true, .cubeDims 1 2 2⟩).1.position
      = ⟨-0.3, 0, 0⟩ ∧
    (handle_object_object_collisions_pair
        ⟨⟨0, 0, 0⟩, 0, 0, 0, 10, 0.2, true, .cubeDims 1 2 2⟩
        ⟨⟨0.6, 0, 0⟩, 0, 0, 0, 30, 0.3, true, .cubeDims 1 2 2⟩).2.position
      = ⟨0.7, 0, 0⟩ := by
  have h := c5_separation_amended.1
    ⟨⟨0, 0, 0⟩, 0, 0, 0, 10, 0.2, true, .cubeDims 1 2 2⟩
    ⟨⟨0.6, 0, 0⟩, 0, 0, 0, 30, 0.3, true, .cubeDims 1 2 2⟩
    ⟨1, 2, 2⟩ ⟨1, 2, 2⟩ 0.6 rfl rfl rfl rfl rfl rfl (by decide) (by decide)
    (by decide) (by decide) (by decide)
  rw [h.1, h.2]
  constructor <;> decide

/-- C6: every operation the claim names leaves an immovable body's
position and velocity unchanged: `apply_force` with any force vector,
the body's own `update(dt)` (which returns with no change at all), and
the impulse and positional separation of both body-body collision
resolvers, on either side of the pair. -/
theorem c6_immovable_invariant (b : Body) (hb : b.is_movable = false) :
    (∀ f : Vec3, (b.apply_force f).position = b.position ∧
                 (b.apply_force f).velocity = b.velocity) ∧
    (∀ dt : ℚ, b.update dt = b) ∧
    (∀ other : Body,
      (handle_object_object_collision b other).1.position = b.position ∧
      (handle_object_object_collision b other).1.velocity = b.velocity ∧
      (handle_object_object_collision other b).2.position = b.position ∧
      (handle_object_object_collision other b).2.velocity = b.velocity ∧
      (handle_object_object_collisions_pair b other).1.position = b.position ∧
      (handle_object_object_collisions_pair b other).1.velocity = b.velocity ∧
      (handle_object_object_collisions_pair other b).2.position = b.position ∧
      (handle_object_object_collisions_pair other b).2.velocity = b.velocity) := by
  refine ⟨?_, ?_, ?_⟩
  · intro f
    unfold Body.apply_force
    rw [if_neg (by simp [hb])]
    exact ⟨rfl, rfl⟩
  · intro dt
    unfold Body.update
    rw [if_pos hb]
  · intro other
    rw [hooc_fst_of_immovable b other hb, hooc_snd_of_immovable b other hb,
        pair_fst_of_immovable b other hb, pair_snd_of_immovable b other hb]
    exact ⟨rfl, rfl, rfl, rfl, rfl, rfl, rfl, rfl⟩

unseal Rat.add Rat.sub Rat.mul Rat.inv Rat.ofScientific Nat.sqrt.iter in
/-- C6 witness: the invariant applied to a concrete immovable box against
a concrete movable one. -/
theorem c6_immovable_witness :
    (Body.update ⟨⟨1, 2, 3⟩, 0, 0, 0, 50, 0.4, false, .cubeDims 1 1 1⟩ 0.1
        = ⟨⟨1, 2, 3⟩, 0, 0, 0, 50, 0.4, false, .cubeDims 1 1 1⟩) ∧
    (Body.apply_force ⟨⟨1, 2, 3⟩, 0, 0, 0, 50, 0.4, false, .cubeDims 1 1 1⟩
        ⟨300, 0, 0⟩).velocity = 0 ∧
    (handle_object_object_collision ⟨⟨1, 2, 3⟩, 0, 0, 0, 50, 0.4, false, .cubeDims 1 1 1⟩
        ⟨⟨1.5, 2, 3⟩, ⟨-1, 0, 0⟩, 0, 0, 10, 0.2, true, .cubeDims 1 2 2⟩).1.position
      = ⟨1, 2, 3⟩ := by
  have h := c6_immovable_invariant ⟨⟨1, 2, 3⟩, 0, 0, 0, 50, 0.4, false, .cubeDims 1 1 1⟩ rfl
  exact ⟨h.2.1 0.1, (h.1 ⟨300, 0, 0⟩).2,
    (h.2.2 ⟨⟨1.5, 2, 3⟩, ⟨-1, 0, 0⟩, 0, 0, 10, 0.2, true, .cubeDims 1 2 2⟩).1⟩

unseal Rat.add Rat.sub Rat.mul Rat.inv Rat.ofScientific Nat.sqrt.iter in
/-- C7 counterexample: feet in the *upper* half of the ±0.1 landing band
snap to the top without the contact being recorded.  Box top 3.0
(center (0, 1.5, 0), height 3); desired position y = 4.75 (feet 3.05,
inside the band, horizontally inside): the query snaps to y = 4.7 but
the snap lowers the position, so line 45's `adjusted > new` test fails
and the standing object stays `none` with height 0 — the claim requires
the collider and its top height to be recorded for the whole band. -/
theorem c7_upper_band_contact_not_recorded :
    let r := check_collision [Obj.cube ⟨0, 1.5, 0⟩ 2 3 2] initial_det
      ⟨2.6, 4.75, 0⟩ ⟨0.5, 4.75, 0⟩
    r.1 = ⟨0.5, 4.7, 0⟩ ∧ r.2.standing_on_object = none ∧ r.2.standing_height = 0 := by
  decide

/-- C7 amended: for a world query against a box, from a non-penetrating
previous position, with the desired position horizontally inside the
`player_radius`-expanded footprint and its feet within ±0.1 of the top:
the resolved position always snaps to `y = top + player_height`, and the
collider with its top height is recorded as the standing contact exactly
when the feet are strictly *below* the top (so the snap raises the
position; in the upper half-band the snap happens without a recorded
contact, as the counterexample shows). -/
theorem c7_landing_snap_and_contact (cpos : Vec3) (w h d : ℚ) (det : Det)
    (position new_position : Vec3)
    (hdet : det.standing_on_object = none)
    (hne : position ≠ new_position)
    (hprev : check_cube_collision cpos w h d position = false)
    (hband : cube_landing_band cpos w h d new_position) :
    (check_collision [Obj.cube cpos w h d] det position new_position).1
        = ⟨new_position.x, cpos.y + h / 2 + player_height, new_position.z⟩ ∧
    (new_position.y - player_height < cpos.y + h / 2 →
      (check_collision [Obj.cube cpos w h d] det position new_position).2.standing_on_object
          = some (Obj.cube cpos w h d) ∧
      (check_collision [Obj.cube cpos w h d] det position new_position).2.standing_height
          = cpos.y + h / 2) := by
  obtain ⟨h1, h2, h3, h4, h5, h6⟩ := hband
  have hcol : check_cube_collision cpos w h d new_position = true := by
    simp only [check_cube_collision, decide_eq_true_eq]
    exact ⟨⟨h1, h2, h3, h4⟩, Or.inr ⟨h5, h6⟩⟩
  have hres : resolve_cube_collision cpos w h d position new_position
      = ⟨new_position.x, cpos.y + h / 2 + player_height, new_position.z⟩ := by
    unfold resolve_cube_collision
    rw [if_neg (by simp [hprev])]
    rw [if_pos ⟨h1, h2, h3, h4, h5, h6⟩]
  unfold check_collision
  rw [if_neg hne]
  dsimp only [List.foldl]
  unfold collide_step
  dsimp only
  rw [if_pos hcol, hres]
  by_cases hy : new_position.y - player_height < cpos.y + h / 2
  · rw [if_pos (show (⟨new_position.x, cpos.y + h / 2 + player_height, new_position.z⟩ :
        Vec3).y > new_position.y by dsimp only; linarith)]
    dsimp only
    rw [if_neg (by simp [hdet])]
    dsimp only
    rw [if_neg (by simp)]
    exact ⟨rfl, fun _ => ⟨rfl, rfl⟩⟩
  · rw [if_neg (show ¬ ((⟨new_position.x, cpos.y + h / 2 + player_height, new_position.z⟩ :
        Vec3).y > new_position.y) by dsimp only; intro hgt; exact hy (by linarith))]
    dsimp only
    rw [if_neg (by simp [hdet])]
    dsimp only
    constructor
    · rfl
    · intro hcontra
      exact absurd hcontra hy

unseal Rat.add Rat.sub Rat.mul Rat.inv Rat.ofScientific Nat.sqrt.iter in
/-- C7 witness: walking onto the box of top height 3.0 with feet at 2.95
(the lower half of the band) snaps to y = 3.0 + 1.7 = 4.7 and records
the box with standing height 3.0. -/
theorem c7_landing_witness :
    (check_collision [Obj.cube ⟨0, 1.5, 0⟩ 2 3 2] initial_det
        ⟨2.6, 4.65, 0⟩ ⟨0.5, 4.65, 0⟩).1 = ⟨0.5, 4.7, 0⟩ ∧
    (check_collision [Obj.cube ⟨0, 1.5, 0⟩ 2 3 2] initial_det
        ⟨2.6, 4.65, 0⟩ ⟨0.5, 4.65, 0⟩).2.standing_on_object
      = some (Obj.cube ⟨0, 1.5, 0⟩ 2 3 2) ∧
    (check_collision [Obj.cube ⟨0, 1.5, 0⟩ 2 3 2] initial_det
        ⟨2.6, 4.65, 0⟩ ⟨0.5, 4.65, 0⟩).2.standing_height = 3 := by
  have h := c7_landing_snap_and_contact ⟨0, 1.5, 0⟩ 2 3 2 initial_det
    ⟨2.6, 4.65, 0⟩ ⟨0.5, 4.65, 0⟩ rfl (by decide) (by decide) (by decide)
  have h2 := h.2 (by decide)
  refine ⟨?_, ?_, ?_⟩
  · rw [h.1]
    decide
  · rw [h2.1]
  · rw [h2.2]
    decide

/-- C8: the warm-up forcing is *not* bounded.  `update` stores
`current_time` into `last_update` (line 72) before the warm-up block
compares `current_time - self.last_update > 1.0` (line 94), so the
comparison is `0 > 1` and `force_on_ground` — set at construction — is
never cleared: every tick of every run keeps forcing `on_ground = true`
at the start of the tick, contradicting the claimed finite window. -/
theorem c8_warmup_forcing_never_disabled (world : List Obj) (det : Det) (st : PlayerState)
    (position movement_dir : Vec3) (jump_requested : Bool) (current_time : ℚ)
    (h : st.force_on_ground = true) :
    (update world det st position movement_dir jump_requested
        current_time).2.1.force_on_ground = true ∧
    (∀ t0 : ℚ, (initial_player_state t0).force_on_ground = true) := by
  constructor
  · unfold update
    simp only []
    rw [step_forced_landing_force, step_altitude_force, step_min_airtime_force,
        step_impact_force, step_gravity_force, step_horizontal_force, step_cooldown_force,
        step_jump_force, step_stabilization_force, step_landing_filter_force,
        step_ground_sense_force, step_eye_level_force, step_watchdog_force,
        step_warmup_force_self]
    exact h
  · intro t0
    rfl

/-- C8 witness: one tick from the freshly constructed state, 50 seconds
after construction, still has the forcing flag enabled. -/
theorem c8_warmup_witness :
    (update [Obj.plane ⟨0, 0, 0⟩] initial_det (initial_player_state 0)
        ⟨0, 1.7, 0⟩ 0 false 50).2.1.force_on_ground = true :=
  (c8_warmup_forcing_never_disabled [Obj.plane ⟨0, 0, 0⟩] initial_det
    (initial_player_state 0) ⟨0, 1.7, 0⟩ 0 false 50 rfl).1

theorem vec_norm_zero : Vec3.norm ⟨0, 0, 0⟩ = 0 := by
  simpa using Vec3.norm_x_axis 0

unseal Rat.add Rat.sub Rat.mul Rat.inv Rat.ofScientific Nat.sqrt.iter in
/-- C9 counterexample: the player-push computation of
`update_interactive_objects` (physics.py 577-589) does *not* substitute
the fixed `+X` default when the player stands exactly at the object's
center — it uses the player's facing direction instead.  With the player
at the center of a reachable interactive cube and facing `+Z`, the push
direction is `(0, 0, 1)`, not `(1, 0, 0)`. -/
theorem c9_player_push_not_default_x :
    check_player_object_collision ⟨5, 0, 5⟩
      ⟨⟨5, 0, 5⟩, 0, 0, 0, 10, 0.3, true, .cubeDims 1 2 2⟩ = true ∧
    player_push_dir ⟨5, 0, 5⟩ ⟨5, 0, 5⟩ ⟨0, 0, 1⟩ = ⟨0, 0, 1⟩ ∧
    (⟨0, 0, 1⟩ : Vec3) ≠ ⟨1, 0, 0⟩ := by decide

/-- C9 amended: the `+X` fallback holds at the cited sites — the
penetration push-out of cube and triangle resolution moves along
`(0.1, 0, 0)` when the previous position coincides horizontally with the
shape's center, and the interactive-push force of
`handle_interactive_object_collisions` is applied along the x axis when
the object's center coincides horizontally with the player's desired
position.  The player-push of `update_interactive_objects` substitutes
the player's horizontal facing direction first and `+X` only when that
is zero too.  No site divides by a zero norm: the norm of a nonzero
vector is positive, and every division sits under a `norm > 0` guard. -/
theorem c9_zero_direction_fallbacks :
    (∀ (cpos : Vec3) (w h d : ℚ) (position new_position : Vec3),
      check_cube_collision cpos w h d position = true →
      position.x = cpos.x → position.z = cpos.z →
      resolve_cube_collision cpos w h d position new_position
        = position + (⟨0.1, 0, 0⟩ : Vec3)) ∧
    (∀ (tpos : Vec3) (s ht : ℚ) (position new_position : Vec3),
      check_triangle_collision tpos s ht position = true →
      position.x = tpos.x → position.z = tpos.z →
      resolve_triangle_collision tpos s ht position new_position
        = position + (⟨0.1, 0, 0⟩ : Vec3)) ∧
    (∀ (position new_position : Vec3) (obj : Body),
      obj.position.x = new_position.x → obj.position.z = new_position.z →
      interactive_push_force position new_position obj = none ∨
      ∃ c : ℚ, interactive_push_force position new_position obj = some ⟨c, 0, 0⟩) ∧
    (∀ (op pp pd : Vec3),
      op.x = pp.x → op.z = pp.z → pd.x = 0 → pd.z = 0 →
      player_push_dir op pp pd = ⟨1, 0, 0⟩) ∧
    (∀ v : Vec3, v ≠ 0 → 0 < v.norm) := by
  refine ⟨?_, ?_, ?_, ?_, ?_⟩
  · intro cpos w h d position new_position hpen hx hz
    unfold resolve_cube_collision
    rw [if_pos hpen]
    dsimp only
    rw [show (⟨position.x - cpos.x, 0, position.z - cpos.z⟩ : Vec3) = ⟨0, 0, 0⟩ by
      simp [hx, hz]]
    rw [vec_norm_zero]
    rw [if_neg (by norm_num)]
  · intro tpos s ht position new_position hpen hx hz
    unfold resolve_triangle_collision
    rw [if_pos hpen]
    dsimp only
    rw [show (⟨position.x - tpos.x, 0, position.z - tpos.z⟩ : Vec3) = ⟨0, 0, 0⟩ by
      simp [hx, hz]]
    rw [vec_norm_zero]
    rw [if_neg (by norm_num)]
  · intro position new_position obj hx hz
    unfold interactive_push_force
    dsimp only
    by_cases hm : (new_position - position).norm < 0.001
    · left
      rw [if_pos hm]
    · rw [if_neg hm]
      rw [show (⟨obj.position.x - new_position.x, 0, obj.position.z - new_position.z⟩ :
          Vec3) = ⟨0, 0, 0⟩ by simp [hx, hz]]
      rw [vec_norm_zero]
      rw [if_pos (by norm_num : (0 : ℚ) < 2.0)]
      rw [if_neg (by norm_num : ¬ ((0 : ℚ) > 0))]
      by_cases hdot : Vec3.dot
          (if (new_position - position).norm > 0
           then (new_position - position) / (new_position - position).norm
           else new_position - position) ⟨1, 0, 0⟩ > 0.3
      · right
        rw [if_pos hdot]
        refine ⟨player_push_strength * Vec3.dot
            (if (new_position - position).norm > 0
             then (new_position - position) / (new_position - position).norm
             else new_position - position) ⟨1, 0, 0⟩ * min 1 (player_mass / obj.mass), ?_⟩
        simp [Vec3.smul_def]
      · left
        rw [if_neg hdot]
  · intro op pp pd hx hz hdx hdz
    unfold player_push_dir
    dsimp only
    rw [show (⟨op.x - pp.x, 0, op.z - pp.z⟩ : Vec3) = ⟨0, 0, 0⟩ by simp [hx, hz]]
    rw [vec_norm_zero]
    rw [if_neg (by norm_num : ¬ ((0 : ℚ) > 0))]
    rw [show (⟨pd.x, 0, pd.z⟩ : Vec3) = ⟨0, 0, 0⟩ by simp [hdx, hdz]]
    rw [vec_norm_zero]
    rw [if_neg (by norm_num : ¬ ((0 : ℚ) > 0))]
  · intro v hv
    exact Vec3.norm_pos hv

unseal Rat.add Rat.sub Rat.mul Rat.inv Rat.ofScientific Nat.sqrt.iter in
/-- C9 witness: the fallbacks at concrete inputs — a player penetrating a
cube exactly at its horizontal center is pushed out along `+X` by 0.1,
the player-push with a centered player and no facing direction returns
`+X`, and a concrete nonzero vector has positive norm. -/
theorem c9_fallback_witness :
    resolve_cube_collision ⟨0, 1, 0⟩ 2 2 2 ⟨0, 1.7, 0⟩ ⟨0.5, 1.7, 0.2⟩ = ⟨0.1, 1.7, 0⟩ ∧
    player_push_dir ⟨4, 0, 4⟩ ⟨4, 0, 4⟩ ⟨0, 0, 0⟩ = ⟨1, 0, 0⟩ ∧
    0 < Vec3.norm ⟨3, 4, 0⟩ := by
  refine ⟨?_, ?_, ?_⟩
  · rw [c9_zero_direction_fallbacks.1 ⟨0, 1, 0⟩ 2 2 2 ⟨0, 1.7, 0⟩ ⟨0.5, 1.7, 0.2⟩
      (by decide) rfl rfl]
    decide
  · exact c9_zero_direction_fallbacks.2.2.2.1 ⟨4, 0, 4⟩ ⟨4, 0, 4⟩ ⟨0, 0, 0⟩ rfl rfl rfl rfl
  · exact c9_zero_direction_fallbacks.2.2.2.2 ⟨3, 4, 0⟩ (by decide)

/-- C10: a query with zero displacement returns early (collision.py
24-25): the position comes back unchanged and the detector state —
standing object, standing height and the ground flag — is exactly what
it was before the call. -/
theorem c10_zero_displacement_identity (world : List Obj) (det : Det) (p : Vec3) :
    check_collision world det p p = (p, det) := by
  unfold check_collision
  simp
